import Mathlib

/-!
Shallow embedding of the payment-session orchestration core of the
`reflex_stripe` package (file `custom_components/reflex_stripe/stripe_state.py`).

Per-session state (the Reflex state vars `client_secret`, `payment_status`,
`error_message`) is modelled by `PaymentState`; the process-wide ClassVar
configuration (`_default_amount`, `_default_currency`, `_return_url`,
`_default_line_items`) by `Config`.  The Stripe SDK calls inside the
`try:` blocks are modelled by adapter functions returning either a success
record or an exception message; each handler returns the new per-session
state together with the number of adapter invocations it performed.
Python truthiness (`x or y`, `if not amt:`) is modelled explicitly.
-/

/-- A Stripe line item is an opaque mapping passed through verbatim;
modelled as an association list of string keys and values. -/
abbrev LineItem := List (String × String)

/-- Per-session payment state: the three Reflex state vars of `StripeState`. -/
structure PaymentState where
  client_secret : String
  payment_status : String
  error_message : String
  deriving DecidableEq, Repr

/-- Process-wide configuration: the ClassVars `_default_amount`,
`_default_currency`, `_return_url`, `_default_line_items` of `StripeState`. -/
structure Config where
  default_amount : Int
  default_currency : String
  return_url : String
  default_line_items : List LineItem
  deriving DecidableEq, Repr

/-- The initial per-session state: `client_secret=""`, `payment_status="idle"`,
`error_message=""` (the field initialisers of `StripeState`). -/
def init_state : PaymentState :=
  { client_secret := "", payment_status := "idle", error_message := "" }

/-- Outcome of the Stripe SDK call `client.v1.payment_intents.create_async`
(together with the preceding `_get_client()` call, both inside the same
`try:`): either an intent record `{id, client_secret, status}` or an
exception carrying `str(e)`. -/
inductive IntentOutcome where
  | ok (id : String) (client_secret : String) (status : String)
  | exn (msg : String)
  deriving DecidableEq, Repr

/-- Outcome of `client.v1.checkout.sessions.create_async` (with
`_get_client()`): a session record whose `status` may be `None`, or an
exception carrying `str(e)`. -/
inductive SessionOutcome where
  | ok (id : String) (client_secret : String) (status : Option String)
  | exn (msg : String)
  deriving DecidableEq, Repr

/-- Python `a or b` on `int | None`: `None` and `0` are falsy. -/
def pyOrInt (a : Option Int) (b : Int) : Int :=
  match a with
  | none => b
  | some x => if x = 0 then b else x

/-- Python `a or b` on `str | None`: `None` and `""` are falsy. -/
def pyOrStr (a : Option String) (b : String) : String :=
  match a with
  | none => b
  | some x => if x = "" then b else x

/-- Python `a or b` on `list | None`: `None` and `[]` are falsy. -/
def pyOrList (a : Option (List LineItem)) (b : List LineItem) : List LineItem :=
  match a with
  | none => b
  | some x => match x with
    | [] => b
    | _ => x

/-- Python `sub in s` on strings: substring containment. -/
def strContains (s sub : String) : Bool :=
  decide (List.IsInfix sub.data s.data)

/-- `StripeState.create_payment_intent(amount, currency)` (lines 93-126):
`amt = amount or self._default_amount`; `cur = currency or
self._default_currency`; `if not amt:` set the validation error and return;
otherwise call the adapter, and on success store the intent's
`client_secret` and `status` and clear the error, on exception store
`str(e)` and set status `"failed"`.  Returns the new state and the number
of adapter invocations. -/
def create_payment_intent (cfg : Config) (s : PaymentState)
    (amount : Option Int) (currency : Option String)
    (adapter : Int → String → IntentOutcome) : PaymentState × Nat :=
  let amt := pyOrInt amount cfg.default_amount
  let cur := pyOrStr currency cfg.default_currency
  if amt = 0 then
    ({ s with error_message := "Amount is required", payment_status := "failed" }, 0)
  else
    match adapter amt cur with
    | IntentOutcome.ok _id cs st =>
        ({ client_secret := cs, payment_status := st, error_message := "" }, 1)
    | IntentOutcome.exn msg =>
        ({ s with error_message := msg, payment_status := "failed" }, 1)

/-- The return-URL construction step of `create_checkout_session`
(lines 154-157): when the URL does not already contain
`{CHECKOUT_SESSION_ID}`, append `session_id={CHECKOUT_SESSION_ID}` after
`&` if the URL already has a `?`, else after `?`. -/
def buildReturnUrl (ret_url : String) : String :=
  if strContains ret_url "{CHECKOUT_SESSION_ID}" then ret_url
  else
    let sep := if strContains ret_url "?" then "&" else "?"
    ret_url ++ sep ++ "session_id={CHECKOUT_SESSION_ID}"

/-- `StripeState.create_checkout_session(line_items, return_url)`
(lines 128-169): `items = line_items or self._default_line_items`; if
empty, set the validation error and return; otherwise compute
`ret_url = return_url or self._return_url or ""`, include
`return_url` in the request only when non-empty (after
`buildReturnUrl`), call the adapter, and on success store the session's
`client_secret` and `status or "open"`, on exception store `str(e)` and
set status `"failed"`. -/
def create_checkout_session (cfg : Config) (s : PaymentState)
    (line_items : Option (List LineItem)) (return_url : Option String)
    (adapter : List LineItem → Option String → SessionOutcome) : PaymentState × Nat :=
  let items := pyOrList line_items cfg.default_line_items
  if items = [] then
    ({ s with error_message := "line_items is required", payment_status := "failed" }, 0)
  else
    let ret_url := pyOrStr (some (pyOrStr return_url cfg.return_url)) ""
    let url_param : Option String :=
      if ret_url = "" then none else some (buildReturnUrl ret_url)
    match adapter items url_param with
    | SessionOutcome.ok _id cs st =>
        ({ client_secret := cs,
           payment_status := pyOrStr st "open",
           error_message := "" }, 1)
    | SessionOutcome.exn msg =>
        ({ s with error_message := msg, payment_status := "failed" }, 1)

/-- `StripeState.handle_payment_success(payment_intent_id)` (lines 171-176). -/
def handle_payment_success (s : PaymentState) (_payment_intent_id : String) : PaymentState :=
  { s with payment_status := "succeeded", error_message := "" }

/-- `StripeState.handle_payment_error(error_message)` (lines 178-183). -/
def handle_payment_error (s : PaymentState) (error_message : String) : PaymentState :=
  { s with payment_status := "failed", error_message := error_message }

/-- `StripeState.reset_payment()` (lines 185-190). -/
def reset_payment (_s : PaymentState) : PaymentState :=
  { client_secret := "", payment_status := "idle", error_message := "" }

/-- `StripeState._set_defaults(amount=0, currency="usd", return_url="")`
(lines 54-64): assigns all three ClassVars unconditionally; a caller that
omits an argument passes the Python default (`0`, `"usd"`, `""`). -/
def set_defaults (cfg : Config) (amount : Int) (currency : String)
    (return_url : String) : Config :=
  { cfg with
    default_amount := amount,
    default_currency := currency,
    return_url := return_url }

/-- `StripeState._set_checkout_defaults(line_items=None, return_url="")`
(lines 66-76): assigns `_default_line_items` only when `line_items is not
None`, and `_return_url` only when `return_url` is truthy (non-empty). -/
def set_checkout_defaults (cfg : Config) (line_items : Option (List LineItem))
    (return_url : String) : Config :=
  let cfg1 := match line_items with
    | none => cfg
    | some items => { cfg with default_line_items := items }
  if return_url = "" then cfg1 else { cfg1 with return_url := return_url }

/-- A per-session payment state reachable from the initial state by the
five session-state-mutating operations, under any configuration, any
arguments and any adapter behaviour. -/
inductive Reachable : PaymentState → Prop where
  | init : Reachable init_state
  | cpi (cfg : Config) (s : PaymentState) (a : Option Int) (c : Option String)
      (f : Int → String → IntentOutcome) (h : Reachable s) :
      Reachable (create_payment_intent cfg s a c f).1
  | ccs (cfg : Config) (s : PaymentState) (li : Option (List LineItem))
      (r : Option String) (f : List LineItem → Option String → SessionOutcome)
      (h : Reachable s) :
      Reachable (create_checkout_session cfg s li r f).1
  | success (s : PaymentState) (pid : String) (h : Reachable s) :
      Reachable (handle_payment_success s pid)
  | error (s : PaymentState) (msg : String) (h : Reachable s) :
      Reachable (handle_payment_error s msg)
  | reset (s : PaymentState) (h : Reachable s) :
      Reachable (reset_payment s)

/-- A sample configuration with a positive default amount and a non-empty
default line-item list. -/
def cfg0 : Config :=
  { default_amount := 1099,
    default_currency := "usd",
    return_url := "/done",
    default_line_items := [[("price", "price_xxx"), ("quantity", "1")]] }

/-- A sample configuration whose default amount is zero and whose default
line-item list is empty. -/
def cfgZero : Config :=
  { default_amount := 0,
    default_currency := "usd",
    return_url := "",
    default_line_items := [] }

/-- A stub adapter whose payment-intent creation always succeeds with
status `"processing"`. -/
def stubIntentOk : Int → String → IntentOutcome :=
  fun _ _ => IntentOutcome.ok "pi_1" "cs_1" "processing"

/-- A stub adapter whose checkout-session creation always succeeds with
status `"open"`. -/
def stubSessionOk : List LineItem → Option String → SessionOutcome :=
  fun _ _ => SessionOutcome.ok "sess_1" "cs_sess_1" (some "open")

/-- A stub adapter whose payment-intent creation succeeds with the Stripe
status `"requires_payment_method"` (a status that is neither
`"processing"` nor `"succeeded"` nor `"failed"`). -/
def stubIntentRequires : Int → String → IntentOutcome :=
  fun _ _ => IntentOutcome.ok "pi_2" "cs_2" "requires_payment_method"

/-- The session state reached from the initial state by a successful
`create_payment_intent` (storing secret `"cs_1"`, status `"processing"`)
followed by `handle_payment_error "card_declined"`. -/
def failedWithSecret : PaymentState :=
  handle_payment_error
    (create_payment_intent cfg0 init_state (some 500) none stubIntentOk).1
    "card_declined"

/-- C8: for every prior session state, `reset_payment` sets the state
exactly to `{client_secret:"", payment_status:"idle", error_message:""}`;
its result is independent of the prior state and it is idempotent. -/
theorem c8_reset_payment (s t : PaymentState) :
    reset_payment s = init_state
    ∧ reset_payment s = reset_payment t
    ∧ reset_payment (reset_payment s) = reset_payment s := by
  simp [reset_payment, init_state]

/-- C9: `handle_payment_success` and `handle_payment_error` leave
`client_secret` unchanged for every prior state and argument;
success sets `payment_status` to `"succeeded"` and clears
`error_message`; error sets `payment_status` to `"failed"` and stores its
argument in `error_message`; both are unconditional in the current
status, so they apply from any state, including each other's result. -/
theorem c9_callbacks (s : PaymentState) (pid msg : String) :
    (handle_payment_success s pid).client_secret = s.client_secret
    ∧ (handle_payment_success s pid).payment_status = "succeeded"
    ∧ (handle_payment_success s pid).error_message = ""
    ∧ (handle_payment_error s msg).client_secret = s.client_secret
    ∧ (handle_payment_error s msg).payment_status = "failed"
    ∧ (handle_payment_error s msg).error_message = msg
    ∧ handle_payment_success (handle_payment_error s msg) pid
        = handle_payment_success s pid
    ∧ (handle_payment_error (handle_payment_success s pid) msg).payment_status
        = "failed" := by
  simp [handle_payment_success, handle_payment_error]

/-- C4: for every adapter behaviour, including the adapter raising, both
creation handlers are total functions of the adapter outcome (no exception
propagates past the handler boundary), and every failure path ends with
`payment_status = "failed"` and the error message stored in
`error_message` (the raised message, or the validation message on the
validation path); moreover with an arbitrary adapter every terminal state
is either a `"failed"` state or has an empty error message. -/
theorem c4_failures_contained (cfg : Config) (s : PaymentState) (a : Option Int)
    (c : Option String) (li : Option (List LineItem)) (r : Option String)
    (msg : String) (f : Int → String → IntentOutcome)
    (g : List LineItem → Option String → SessionOutcome) :
    ((create_payment_intent cfg s a c (fun _ _ => IntentOutcome.exn msg)).1.payment_status
        = "failed"
      ∧ ((create_payment_intent cfg s a c (fun _ _ => IntentOutcome.exn msg)).1.error_message
            = msg
        ∨ (create_payment_intent cfg s a c (fun _ _ => IntentOutcome.exn msg)).1.error_message
            = "Amount is required"))
    ∧ ((create_checkout_session cfg s li r (fun _ _ => SessionOutcome.exn msg)).1.payment_status
        = "failed"
      ∧ ((create_checkout_session cfg s li r (fun _ _ => SessionOutcome.exn msg)).1.error_message
            = msg
        ∨ (create_checkout_session cfg s li r (fun _ _ => SessionOutcome.exn msg)).1.error_message
            = "line_items is required"))
    ∧ ((create_payment_intent cfg s a c f).1.payment_status = "failed"
        ∨ (create_payment_intent cfg s a c f).1.error_message = "")
    ∧ ((create_checkout_session cfg s li r g).1.payment_status = "failed"
        ∨ (create_checkout_session cfg s li r g).1.error_message = "") := by
  refine ⟨?_, ?_, ?_, ?_⟩
  · simp only [create_payment_intent]
    split
    · simp
    · simp
  · simp only [create_checkout_session]
    split
    · simp
    · simp
  · simp only [create_payment_intent]
    split
    · simp
    · split <;> simp
  · simp only [create_checkout_session]
    split
    · simp
    · split <;> simp

/-- C7: when the configured return URL does not already contain the
placeholder token `{CHECKOUT_SESSION_ID}`, the return-URL construction
step of `create_checkout_session` appends `?session_id={CHECKOUT_SESSION_ID}`
if the URL has no `?` and `&session_id={CHECKOUT_SESSION_ID}` if it already
contains one; `"/done"` yields `"/done?session_id={CHECKOUT_SESSION_ID}"`;
a URL already containing the placeholder passes through unchanged. -/
theorem c7_return_url (url : String) :
    (strContains url "{CHECKOUT_SESSION_ID}" = false →
      strContains url "?" = false →
        buildReturnUrl url = url ++ "?session_id={CHECKOUT_SESSION_ID}")
    ∧ (strContains url "{CHECKOUT_SESSION_ID}" = false →
      strContains url "?" = true →
        buildReturnUrl url = url ++ "&session_id={CHECKOUT_SESSION_ID}")
    ∧ (strContains url "{CHECKOUT_SESSION_ID}" = true → buildReturnUrl url = url)
    ∧ buildReturnUrl "/done" = "/done?session_id={CHECKOUT_SESSION_ID}" := by
  refine ⟨?_, ?_, ?_, by decide⟩ <;> intro h <;> simp [buildReturnUrl, h] <;>
    intro h2 <;> simp [h2, String.append_assoc]

/-- Witness for C7 at the concrete configured URL `"/done"` and at a URL
already containing the placeholder. -/
theorem c7_return_url_witness :
    buildReturnUrl "/done" = "/done?session_id={CHECKOUT_SESSION_ID}"
    ∧ buildReturnUrl "/r?a=1" = "/r?a=1&session_id={CHECKOUT_SESSION_ID}"
    ∧ buildReturnUrl "/r/{CHECKOUT_SESSION_ID}" = "/r/{CHECKOUT_SESSION_ID}" :=
  ⟨(c7_return_url "/done").1 (by decide) (by decide),
   (c7_return_url "/r?a=1").2.1 (by decide) (by decide),
   (c7_return_url "/r/{CHECKOUT_SESSION_ID}").2.2.1 (by decide)⟩

/-- C10: falsy arguments are indistinguishable from omitted ones:
`create_payment_intent` with amount `0` equals the call with amount
omitted, an empty-string or omitted currency both resolve to the
configured default currency, `create_checkout_session` with an empty
line-item list equals the call with the list omitted; and an explicit
zero amount (resp. explicit empty list) reaches the adapter — one
invocation, success state on adapter success — whenever a non-zero
default amount (resp. non-empty default line-item list) is configured. -/
theorem c10_falsy_is_omitted (cfg : Config) (s : PaymentState)
    (c : Option String) (a : Option Int) (r : Option String)
    (id cs st : String)
    (f : Int → String → IntentOutcome)
    (g : List LineItem → Option String → SessionOutcome) :
    create_payment_intent cfg s (some 0) c f = create_payment_intent cfg s none c f
    ∧ create_payment_intent cfg s a (some "") f = create_payment_intent cfg s a none f
    ∧ create_payment_intent cfg s a none f
        = create_payment_intent cfg s a (some cfg.default_currency) f
    ∧ create_checkout_session cfg s (some []) r g = create_checkout_session cfg s none r g
    ∧ (cfg.default_amount ≠ 0 → (create_payment_intent cfg s (some 0) c f).2 = 1)
    ∧ (cfg.default_line_items ≠ [] → (create_checkout_session cfg s (some []) r g).2 = 1)
    ∧ (cfg.default_amount ≠ 0 →
        (create_payment_intent cfg s (some 0) c
            (fun _ _ => IntentOutcome.ok id cs st)).1
          = { client_secret := cs, payment_status := st, error_message := "" }) := by
  have h0 : pyOrInt (some 0) cfg.default_amount = cfg.default_amount := by
    simp [pyOrInt]
  have hl : pyOrList (some []) cfg.default_line_items = cfg.default_line_items := by
    simp [pyOrList]
  refine ⟨?_, ?_, ?_, ?_, ?_, ?_, ?_⟩
  · simp [create_payment_intent, pyOrInt]
  · simp [create_payment_intent, pyOrStr]
  · simp [create_payment_intent, pyOrStr, ite_self]
  · simp [create_checkout_session, pyOrList]
  · intro h
    simp only [create_payment_intent, h0]
    rw [if_neg h]
    split <;> rfl
  · intro h
    simp only [create_checkout_session, hl]
    rw [if_neg h]
    split <;> rfl
  · intro h
    simp [create_payment_intent, pyOrInt, h]

/-- Witness for C10: with the sample configuration (default amount 1099,
non-empty default line items), an explicit zero amount and an explicit
empty line-item list both reach the adapter. -/
theorem c10_falsy_is_omitted_witness :
    (create_payment_intent cfg0 init_state (some 0) none stubIntentOk).2 = 1
    ∧ (create_checkout_session cfg0 init_state (some []) none stubSessionOk).2 = 1
    ∧ (create_payment_intent cfg0 init_state (some 0) none
          (fun _ _ => IntentOutcome.ok "pi_1" "cs_1" "processing")).1
        = { client_secret := "cs_1", payment_status := "processing", error_message := "" } :=
  ⟨(c10_falsy_is_omitted cfg0 init_state none none none "pi_1" "cs_1" "processing"
      stubIntentOk stubSessionOk).2.2.2.2.1 (by decide),
   (c10_falsy_is_omitted cfg0 init_state none none none "pi_1" "cs_1" "processing"
      stubIntentOk stubSessionOk).2.2.2.2.2.1 (by decide),
   (c10_falsy_is_omitted cfg0 init_state none none none "pi_1" "cs_1" "processing"
      stubIntentOk stubSessionOk).2.2.2.2.2.2 (by decide)⟩

/-- C5 counterexample: with a configuration whose return URL is `"/done"`,
calling `_set_defaults` with only the amount provided (currency and
return URL at their Python defaults `"usd"` and `""`) resets the return
URL to `""` — the omitted field is not left unchanged, so the claim that
both setters follow the partial-update law is false. -/
theorem c5_partial_update_counterexample :
    cfg0.return_url = "/done"
    ∧ (set_defaults cfg0 500 "usd" "").return_url = ""
    ∧ (set_defaults cfg0 500 "usd" "").return_url ≠ cfg0.return_url := by
  decide

/-- C5 amended: only `_set_checkout_defaults` follows the partial-update
law — `line_items = None` leaves the default line items unchanged, an
empty (omitted) return URL leaves the return URL unchanged, and
`_set_checkout_defaults(line_items = X)` without a return URL stores `X`
while keeping a previously-set return URL; a non-empty return URL is
stored.  `_set_defaults` instead overwrites all three of its fields
unconditionally with the passed (or Python-default) values. -/
theorem c5_partial_update (cfg : Config) (a : Int) (c ru : String)
    (items : List LineItem) :
    (set_checkout_defaults cfg none ru).default_line_items = cfg.default_line_items
    ∧ (set_checkout_defaults cfg (some items) "").return_url = cfg.return_url
    ∧ (set_checkout_defaults cfg (some items) "").default_line_items = items
    ∧ (ru ≠ "" → (set_checkout_defaults cfg (some items) ru).return_url = ru)
    ∧ set_defaults cfg a c ru =
        { default_amount := a, default_currency := c, return_url := ru,
          default_line_items := cfg.default_line_items } := by
  refine ⟨?_, ?_, ?_, ?_, ?_⟩
  · simp only [set_checkout_defaults]
    split <;> rfl
  · simp [set_checkout_defaults]
  · simp [set_checkout_defaults]
  · intro h
    simp [set_checkout_defaults, h]
  · simp [set_defaults]

/-- Witness for C5 amended: a previously-set return URL `"/done"` survives
`_set_checkout_defaults(line_items = X)`, and a non-empty return URL is
stored. -/
theorem c5_partial_update_witness :
    (set_checkout_defaults cfg0 (some [[("price", "price_yyy")]]) "").return_url
        = cfg0.return_url
    ∧ (set_checkout_defaults cfg0 (some [[("price", "price_yyy")]]) "/ret").return_url
        = "/ret" :=
  ⟨(c5_partial_update cfg0 0 "usd" "" [[("price", "price_yyy")]]).2.1,
   (c5_partial_update cfg0 0 "usd" "/ret" [[("price", "price_yyy")]]).2.2.2.1
     (by decide)⟩

/-- C6 counterexample: with a stub adapter reporting status
`"requires_payment_method"` (neither `"succeeded"` nor `"failed"`), a
successful `create_payment_intent` stores that status verbatim rather
than `"processing"`, so the claim is false. -/
theorem c6_status_counterexample :
    (create_payment_intent cfg0 init_state (some 500) none stubIntentRequires).1.payment_status
        = "requires_payment_method"
    ∧ (create_payment_intent cfg0 init_state (some 500) none stubIntentRequires).1.payment_status
        ≠ "processing" := by
  decide

/-- C6 amended: on adapter success with a non-zero effective amount,
`create_payment_intent` stores the returned client secret, stores the
provider-reported status string verbatim — whatever string the stub
adapter returns, with no coercion to `"processing"` — and clears the
error message. -/
theorem c6_success_stores_reported_status (cfg : Config) (s : PaymentState)
    (a : Int) (c : Option String) (id cs st : String) (h : a ≠ 0) :
    create_payment_intent cfg s (some a) c (fun _ _ => IntentOutcome.ok id cs st)
      = ({ client_secret := cs, payment_status := st, error_message := "" }, 1) := by
  simp [create_payment_intent, pyOrInt, h]

/-- Witness for C6 amended at amount 1099 and reported status
`"succeeded"`. -/
theorem c6_success_stores_reported_status_witness :
    create_payment_intent cfg0 init_state (some 1099) none
        (fun _ _ => IntentOutcome.ok "pi_1" "cs_1" "succeeded")
      = ({ client_secret := "cs_1", payment_status := "succeeded",
           error_message := "" }, 1) :=
  c6_success_stores_reported_status cfg0 init_state 1099 none "pi_1" "cs_1"
    "succeeded" (by decide)

/-- C2 counterexample: the amount `-1` is `≤ 0`, yet
`create_payment_intent` invokes the adapter once (the claim requires zero
invocations) and, with a succeeding stub, ends with status
`"processing"`, not `"failed"`: the `if not amt` guard only rejects an
effective amount of exactly zero. -/
theorem c2_nonpositive_counterexample :
    (-1 : Int) ≤ 0
    ∧ (create_payment_intent cfg0 init_state (some (-1)) none stubIntentOk).2 = 1
    ∧ (create_payment_intent cfg0 init_state (some (-1)) none stubIntentOk).1.payment_status
        = "processing" := by
  decide

/-- C2 amended: `create_payment_intent` fails without any adapter call
exactly when the effective amount — the passed amount with `0`/`None`
replaced by the configured default — is zero: then `payment_status`
becomes `"failed"` with the non-empty message `"Amount is required"` and
`client_secret` unchanged.  A negative amount is not rejected and reaches
the adapter (one invocation). -/
theorem c2_zero_effective_amount (cfg : Config) (s : PaymentState)
    (c : Option String) (f : Int → String → IntentOutcome) :
    (cfg.default_amount = 0 →
      create_payment_intent cfg s (some 0) c f
          = ({ s with error_message := "Amount is required",
                      payment_status := "failed" }, 0)
      ∧ create_payment_intent cfg s none c f
          = ({ s with error_message := "Amount is required",
                      payment_status := "failed" }, 0))
    ∧ (∀ a : Int, a < 0 → (create_payment_intent cfg s (some a) c f).2 = 1) := by
  constructor
  · intro h
    constructor <;> simp [create_payment_intent, pyOrInt, h]
  · intro a ha
    have hne : a ≠ 0 := ne_of_lt ha
    simp only [create_payment_intent, pyOrInt]
    rw [if_neg hne, if_neg hne]
    split <;> rfl

/-- Witness for C2 amended: with a zero default amount, a zero passed
amount fails validation with no adapter call; with any configuration,
amount `-1` invokes the adapter once. -/
theorem c2_zero_effective_amount_witness :
    create_payment_intent cfgZero init_state (some 0) none stubIntentOk
        = ({ init_state with error_message := "Amount is required",
                             payment_status := "failed" }, 0)
    ∧ (create_payment_intent cfg0 init_state (some (-1)) none stubIntentOk).2 = 1 :=
  ⟨((c2_zero_effective_amount cfgZero init_state none stubIntentOk).1 (by decide)).1,
   (c2_zero_effective_amount cfg0 init_state none stubIntentOk).2 (-1) (by decide)⟩

/-- C3 counterexample: with a non-empty configured default line-item
list, `create_checkout_session` called with an explicitly empty list
falls back to the default and invokes the adapter once (the claim
requires zero invocations regardless of the configured default), ending
with status `"open"`, not `"failed"`. -/
theorem c3_empty_items_counterexample :
    cfg0.default_line_items ≠ []
    ∧ (create_checkout_session cfg0 init_state (some []) none stubSessionOk).2 = 1
    ∧ (create_checkout_session cfg0 init_state (some []) none stubSessionOk).1.payment_status
        = "open" := by
  decide

/-- C3 amended: `create_checkout_session` fails without any adapter call
exactly when the effective line-item list — the passed list with
`[]`/`None` replaced by the configured default — is empty: then
`payment_status` becomes `"failed"` with the non-empty message
`"line_items is required"` and `client_secret` unchanged.  An explicitly
empty list with a non-empty configured default falls back to the default
and the adapter is invoked once. -/
theorem c3_empty_effective_items (cfg : Config) (s : PaymentState)
    (r : Option String) (g : List LineItem → Option String → SessionOutcome) :
    (cfg.default_line_items = [] →
      create_checkout_session cfg s (some []) r g
          = ({ s with error_message := "line_items is required",
                      payment_status := "failed" }, 0)
      ∧ create_checkout_session cfg s none r g
          = ({ s with error_message := "line_items is required",
                      payment_status := "failed" }, 0))
    ∧ (cfg.default_line_items ≠ [] →
        (create_checkout_session cfg s (some []) r g).2 = 1) := by
  constructor
  · intro h
    constructor <;> simp [create_checkout_session, pyOrList, h]
  · intro h
    have hl : pyOrList (some []) cfg.default_line_items = cfg.default_line_items := by
      simp [pyOrList]
    simp only [create_checkout_session, hl]
    rw [if_neg h]
    split <;> rfl

/-- Witness for C3 amended: with an empty configured default list, an
explicitly empty list fails validation with no adapter call; with the
sample configuration's non-empty default, it invokes the adapter once. -/
theorem c3_empty_effective_items_witness :
    create_checkout_session cfgZero init_state (some []) none stubSessionOk
        = ({ init_state with error_message := "line_items is required",
                             payment_status := "failed" }, 0)
    ∧ (create_checkout_session cfg0 init_state (some []) none stubSessionOk).2 = 1 :=
  ⟨((c3_empty_effective_items cfgZero init_state none stubSessionOk).1 (by decide)).1,
   (c3_empty_effective_items cfg0 init_state none stubSessionOk).2 (by decide)⟩

/-- C1 counterexample: the state reached by a successful
`create_payment_intent` followed by `handle_payment_error` is reachable,
has the non-empty client secret `"cs_1"`, and has status `"failed"` —
outside `{requires_action, processing, succeeded}` — so the claimed
invariant "client_secret is non-empty only when the status is
requires_action, processing or succeeded" is not preserved by the
operations. -/
theorem c1_invariant_counterexample :
    Reachable failedWithSecret
    ∧ failedWithSecret.client_secret ≠ ""
    ∧ failedWithSecret.payment_status ≠ "requires_action"
    ∧ failedWithSecret.payment_status ≠ "processing"
    ∧ failedWithSecret.payment_status ≠ "succeeded" := by
  refine ⟨?_, by decide, by decide, by decide, by decide⟩
  exact Reachable.error _ "card_declined"
    (Reachable.cpi cfg0 init_state (some 500) none stubIntentOk Reachable.init)

/-- C1 amended: of the claimed data-model invariant, the error-message
half holds — every operation preserves it, so on every reachable
per-session state (any configuration, arguments and adapter outcomes),
`error_message` is non-empty only when `payment_status = "failed"`.  The
client-secret half fails, because the failure paths and
`handle_payment_error` leave a previously stored `client_secret` in
place while setting the status to `"failed"`. -/
theorem c1_error_message_invariant (s : PaymentState) (h : Reachable s) :
    s.error_message ≠ "" → s.payment_status = "failed" := by
  induction h with
  | init => simp [init_state]
  | cpi cfg s a c f h ih =>
      simp only [create_payment_intent]
      split
      · simp
      · split <;> simp
  | ccs cfg s li r f h ih =>
      simp only [create_checkout_session]
      split
      · simp
      · split <;> simp
  | success s pid h ih => simp [handle_payment_success]
  | error s msg h ih => simp [handle_payment_error]
  | reset s h ih => simp [reset_payment]

/-- Witness for C1 amended: the reachable state produced by
`handle_payment_error "boom"` from the initial state has a non-empty
error message, and the theorem yields its status `"failed"`. -/
theorem c1_error_message_invariant_witness :
    (handle_payment_error init_state "boom").payment_status = "failed" :=
  c1_error_message_invariant (handle_payment_error init_state "boom")
    (Reachable.error init_state "boom" Reachable.init) (by decide)
